import Mathlib

/-!
# HolaMundoIBeacon: advertising encoder, UUID codec, service activation

A shallow embedding of the header-only Arduino sketch `HolaMundoIBeacon`
(`ServicioEnEmisora.h`, `EmisoraBLE.h`, `Publicador.h`) and theorems about it.

Conventions of the embedding

* A byte (`uint8_t`, or a `char` seen through its object representation) is a
  `Nat` below 256.  A C string is the list of its bytes before the terminating
  NUL, so `strlen` is the length of the list.
* A fixed-size C array is a `List Nat`; a store `p[k] = v` is `List.set`.
* `int16_t`/`uint16_t`/`uint8_t` conversions are written out with `% 2^w`.
* The Adafruit radio stack (`Bluefruit`) is an external library.  Its state is
  a running flag together with the ordered trace of the calls made to it.
* Text written to the serial port is write-only and is not part of the state.
-/

namespace HolaMundoIBeacon

/-! ## ServicioEnEmisora.h : `stringAUint8AlReves` -/

/-- Embedding of `stringAUint8AlReves( pString, pUint, tamMax )`
(ServicioEnEmisora.h, lines 53-62).  The loop `for i = 0 .. longitudCopiar-1`
stores `pString[i]` at `pUint[tamMax-i-1]`; the returned pointer is `pUint`
itself, so the result is the buffer after the loop. -/
def stringAUint8AlReves (pString : List Nat) (pUint : List Nat) (tamMax : Nat) : List Nat :=
  let longitudString := pString.length
  let longitudCopiar := if longitudString > tamMax then tamMax else longitudString
  (List.range longitudCopiar).foldl
    (fun buf i => buf.set (tamMax - i - 1) (pString.getD i 0)) pUint

/-- Embedding of `alReves( p, n )` (ServicioEnEmisora.h, lines 27-37).  Round `i`
of the loop `for i = 0 .. n/2 - 1` swaps `p[i]` and `p[n-i-1]` through `aux`;
the returned pointer is `p` itself. -/
def alReves {T : Type} [Inhabited T] (p : List T) (n : Nat) : List T :=
  (List.range (n / 2)).foldl
    (fun q i =>
      let aux := q.getD i default
      (q.set i (q.getD (n - i - 1) default)).set (n - i - 1) aux) p

/-- The default UUID pattern `'0','1',...,'9','A',...,'F'` held by
`uuidServicio` and `uuidCaracteristica` (ServicioEnEmisora.h, lines 103-108
and 245-250). -/
def uuidPorDefecto : List Nat :=
  [48, 49, 50, 51, 52, 53, 54, 55, 56, 57, 65, 66, 67, 68, 69, 70]

/-! ## The external radio stack -/

/-- The beacon object built by `BLEBeacon elBeacon(beaconUUID, major, minor, rssi)`
followed by `elBeacon.setManufacturer(fabricanteID)` (EmisoraBLE.h, lines 82-83).
The fields hold the arguments as `emitirAnuncioIBeacon` passes them on. -/
structure BLEBeacon where
  uuid : List Nat
  major : Int
  minor : Int
  rssi : Nat
  manufacturer : Nat
deriving DecidableEq

/-- Modelled from the spec: the calls this sketch makes to the external radio
stack (`Bluefruit`, `BLEService`, `BLECharacteristic`) and to Arduino's `delay`.
The library itself is not part of the repository; section 9 of the
specification describes it as a capability interface (start advertising, stop
advertising, is advertising, start service, start characteristic).  Each
constructor is one call, with its arguments and, where the sketch reads it, its
result. -/
inductive Llamada where
  | bluefruitBegin
  | setTxPower (txPower : Int)
  | setName (nombre : String)
  | scanResponseAddName
  | scanResponseClearData
  | advertisingClearData
  | advertisingAddFlagsLeOnlyGeneralDiscMode
  | advertisingAddManufacturerData (datos : List Nat) (longitud : Nat)
  | advertisingSetBeacon (elBeacon : BLEBeacon)
  | advertisingRestartOnDisconnect (activo : Bool)
  | advertisingSetInterval (rapido lento : Nat)
  | advertisingSetFastTimeout (segundos : Nat)
  | advertisingStart (timeout : Nat)
  | advertisingStop
  | advertisingAddService (uuidServicio : List Nat) (resultado : Bool)
  | servicioBegin (uuidServicio : List Nat) (error : Nat)
  | caracteristicaBegin (uuidCaracteristica : List Nat) (error : Nat)
  | delay (tiempo : Int)
deriving DecidableEq

/-- Modelled from the spec: the state of the external radio stack as the sketch
can observe it.  `anunciando` is what `Bluefruit.Advertising.isRunning()`
returns (the specification's Idle / Advertising); `llamadas` is the ordered
trace of the external calls made so far. -/
structure Radio where
  anunciando : Bool
  llamadas : List Llamada
deriving DecidableEq

/-- Modelled from the spec: the effect of one external call on the radio state.
`Bluefruit.Advertising.start` makes the radio advertise, `stop` halts it, every
other call leaves the running flag as it is; the call is appended to the
trace. -/
def Radio.llamar (radio : Radio) (llamada : Llamada) : Radio :=
  match llamada with
  | .advertisingStart _ => { anunciando := true, llamadas := radio.llamadas ++ [llamada] }
  | .advertisingStop => { anunciando := false, llamadas := radio.llamadas ++ [llamada] }
  | _ => { anunciando := radio.anunciando, llamadas := radio.llamadas ++ [llamada] }

/-- Standard C `memcpy( &dest[desde], &src[0], n )` on arrays held as lists:
byte `k` of `src` is stored at `dest[desde + k]` for `k = 0 .. n-1`. -/
def memcpy (dest : List Nat) (desde : Nat) (src : List Nat) : Nat → List Nat
  | 0 => dest
  | n + 1 => (memcpy dest desde src n).set (desde + n) (src.getD n 0)

/-- Embedding of `esperar( tiempo )` (LED.h, lines 20-22): a call of `delay`. -/
def esperar (tiempo : Int) (radio : Radio) : Radio :=
  radio.llamar (.delay tiempo)

/-! ## EmisoraBLE.h -/

/-- The fields of `class EmisoraBLE` (EmisoraBLE.h, lines 12-14). -/
structure EmisoraBLE where
  nombreEmisora : String
  fabricanteID : Nat
  txPower : Int
deriving DecidableEq

/-- Embedding of `EmisoraBLE::estaAnunciando` (EmisoraBLE.h, lines 68-70). -/
def EmisoraBLE.estaAnunciando (_emisora : EmisoraBLE) (radio : Radio) : Bool :=
  radio.anunciando

/-- Embedding of `EmisoraBLE::detenerAnuncio` (EmisoraBLE.h, lines 57-61). -/
def EmisoraBLE.detenerAnuncio (emisora : EmisoraBLE) (radio : Radio) : Radio :=
  if emisora.estaAnunciando radio then radio.llamar .advertisingStop else radio

/-- Embedding of `EmisoraBLE::encenderEmisora` without callbacks (EmisoraBLE.h,
lines 37-40). -/
def EmisoraBLE.encenderEmisora (emisora : EmisoraBLE) (radio : Radio) : Radio :=
  emisora.detenerAnuncio (radio.llamar .bluefruitBegin)

/-- Embedding of `EmisoraBLE::emitirAnuncioIBeacon` (EmisoraBLE.h, lines 80-91). -/
def EmisoraBLE.emitirAnuncioIBeacon (emisora : EmisoraBLE) (beaconUUID : List Nat)
    (major minor : Int) (rssi : Nat) (radio : Radio) : Radio :=
  let r0 := emisora.detenerAnuncio radio
  let elBeacon : BLEBeacon :=
    { uuid := beaconUUID, major := major, minor := minor, rssi := rssi,
      manufacturer := emisora.fabricanteID }
  let r1 := r0.llamar (.setTxPower emisora.txPower)
  let r2 := r1.llamar (.setName emisora.nombreEmisora)
  let r3 := r2.llamar .scanResponseAddName
  let r4 := r3.llamar (.advertisingSetBeacon elBeacon)
  let r5 := r4.llamar (.advertisingRestartOnDisconnect true)
  let r6 := r5.llamar (.advertisingSetInterval 100 100)
  r6.llamar (.advertisingStart 0)

/-- The local array `uint8_t restoPrefijoYCarga[4+21] = {...}` right after its
initialisation (EmisoraBLE.h, line 107).  The initialiser list has 21 entries:
`0x4c, 0x00, 0x02, 21` and seventeen `'-'` (45); C++ aggregate initialisation
sets the four elements without an initialiser, indices 21 to 24, to zero. -/
def restoPrefijoYCargaInicial : List Nat :=
  [0x4c, 0x00, 0x02, 21,
   45, 45, 45, 45, 45, 45, 45, 45, 45, 45, 45, 45, 45, 45, 45, 45, 45,
   0, 0, 0, 0]

/-- The array `restoPrefijoYCarga` after
`memcpy( &restoPrefijoYCarga[4], &carga[0], (tamanyoCarga > 21 ? 21 : tamanyoCarga) )`
(EmisoraBLE.h, line 108). -/
def restoPrefijoYCarga (carga : List Nat) (tamanyoCarga : Nat) : List Nat :=
  memcpy restoPrefijoYCargaInicial 4 carga (if tamanyoCarga > 21 then 21 else tamanyoCarga)

/-- Embedding of `EmisoraBLE::emitirAnuncioIBeaconLibre` (EmisoraBLE.h, lines 99-115). -/
def EmisoraBLE.emitirAnuncioIBeaconLibre (emisora : EmisoraBLE) (carga : List Nat)
    (tamanyoCarga : Nat) (radio : Radio) : Radio :=
  let r0 := emisora.detenerAnuncio radio
  let r1 := r0.llamar .advertisingClearData
  let r2 := r1.llamar .scanResponseClearData
  let r3 := r2.llamar (.setName emisora.nombreEmisora)
  let r4 := r3.llamar .scanResponseAddName
  let r5 := r4.llamar .advertisingAddFlagsLeOnlyGeneralDiscMode
  let r6 := r5.llamar (.advertisingAddManufacturerData (restoPrefijoYCarga carga tamanyoCarga) (4 + 21))
  let r7 := r6.llamar (.advertisingRestartOnDisconnect true)
  let r8 := r7.llamar (.advertisingSetInterval 100 100)
  let r9 := r8.llamar (.advertisingSetFastTimeout 1)
  r9.llamar (.advertisingStart 0)

/-- The 21-byte payload field of the manufacturer data: bytes 4..24 of the
25-byte buffer handed to `Bluefruit.Advertising.addData`. -/
def campoCarga (carga : List Nat) (tamanyoCarga : Nat) : List Nat :=
  (restoPrefijoYCarga carga tamanyoCarga).drop 4

/-! ## ServicioEnEmisora.h : services and characteristics -/

/-- The class `ServicioEnEmisora::Caracteristica` (ServicioEnEmisora.h, lines
99-240) as far as the sketch holds state of its own: the UUID buffer.
Properties, permissions and maximum length are handed straight to the external
`BLECharacteristic`. -/
structure Caracteristica where
  uuidCaracteristica : List Nat
deriving DecidableEq

/-- Embedding of the constructor `Caracteristica( nombreCaracteristica_ )`
(ServicioEnEmisora.h, lines 124-129). -/
def Caracteristica.crear (nombreCaracteristica : List Nat) : Caracteristica :=
  { uuidCaracteristica := stringAUint8AlReves nombreCaracteristica uuidPorDefecto 16 }

/-- The fields of `class ServicioEnEmisora` (ServicioEnEmisora.h, lines
245-256); `lasCaracteristicas` is the `std::vector< Caracteristica * >`. -/
structure ServicioEnEmisora where
  uuidServicio : List Nat
  lasCaracteristicas : List Caracteristica
deriving DecidableEq

/-- Embedding of the constructor `ServicioEnEmisora( nombreServicio_ )`
(ServicioEnEmisora.h, lines 268-273). -/
def ServicioEnEmisora.crear (nombreServicio : List Nat) : ServicioEnEmisora :=
  { uuidServicio := stringAUint8AlReves nombreServicio uuidPorDefecto 16,
    lasCaracteristicas := [] }

/-- Modelled from the spec: the results the external stack gives to the calls
whose outcome the sketch reads: `Bluefruit.Advertising.addService`, the
`begin` of the service, and the `begin` of the characteristic activated at
position `k` of the activation loop.  An `err_t` of 0 is success. -/
structure Resultados where
  addService : Bool
  servicioBegin : Nat
  caracteristicaBegin : Nat → Nat

/-- Embedding of `Caracteristica::activar` (ServicioEnEmisora.h, lines 234-238):
one `begin` of the characteristic, whose `error` is only printed. -/
def Caracteristica.activar (car : Caracteristica) (error : Nat) (radio : Radio) : Radio :=
  radio.llamar (.caracteristicaBegin car.uuidCaracteristica error)

/-- Embedding of `ServicioEnEmisora::anyadirCaracteristica` (ServicioEnEmisora.h,
lines 294-296): `push_back` on the vector. -/
def ServicioEnEmisora.anyadirCaracteristica (servicio : ServicioEnEmisora)
    (car : Caracteristica) : ServicioEnEmisora :=
  { servicio with lasCaracteristicas := servicio.lasCaracteristicas ++ [car] }

/-- The loop `for( auto pCar : lasCaracteristicas ) (*pCar).activar();` of
`activarServicio` (ServicioEnEmisora.h, lines 311-313), from position `k` on. -/
def activarCaracteristicas (res : Resultados) : Nat → List Caracteristica → Radio → Radio
  | _, [], radio => radio
  | k, car :: resto, radio =>
      activarCaracteristicas res (k + 1) resto (car.activar (res.caracteristicaBegin k) radio)

/-- Embedding of `ServicioEnEmisora::activarServicio` (ServicioEnEmisora.h,
lines 305-315). -/
def ServicioEnEmisora.activarServicio (servicio : ServicioEnEmisora) (res : Resultados)
    (radio : Radio) : Radio :=
  let r0 := radio.llamar (.servicioBegin servicio.uuidServicio res.servicioBegin)
  activarCaracteristicas res 0 servicio.lasCaracteristicas r0

/-- Embedding of `EmisoraBLE::anyadirServicio` (EmisoraBLE.h, lines 123-130). -/
def EmisoraBLE.anyadirServicio (_emisora : EmisoraBLE) (res : Resultados)
    (servicio : ServicioEnEmisora) (radio : Radio) : Bool × Radio :=
  let r := res.addService
  (r, radio.llamar (.advertisingAddService servicio.uuidServicio r))

/-- Embedding of the two overloads of `EmisoraBLE::anyadirServicioConSusCaracteristicas`
(EmisoraBLE.h, lines 138-154).  The argument pack is a list: the overload
without characteristics is the empty pack, the variadic one appends the first
characteristic and recurses on the rest. -/
def EmisoraBLE.anyadirServicioConSusCaracteristicas (emisora : EmisoraBLE) (res : Resultados)
    (servicio : ServicioEnEmisora) :
    List Caracteristica → Radio → Bool × ServicioEnEmisora × Radio
  | [], radio =>
      let (r, radio1) := emisora.anyadirServicio res servicio radio
      (r, servicio, radio1)
  | caracteristica :: restoCaracteristicas, radio =>
      EmisoraBLE.anyadirServicioConSusCaracteristicas emisora res
        (servicio.anyadirCaracteristica caracteristica) restoCaracteristicas radio

/-- Embedding of `EmisoraBLE::anyadirServicioConSusCaracteristicasYActivar`
(EmisoraBLE.h, lines 163-168). -/
def EmisoraBLE.anyadirServicioConSusCaracteristicasYActivar (emisora : EmisoraBLE)
    (res : Resultados) (servicio : ServicioEnEmisora)
    (restoCaracteristicas : List Caracteristica) (radio : Radio) :
    Bool × ServicioEnEmisora × Radio :=
  let (r, servicio1, radio1) :=
    emisora.anyadirServicioConSusCaracteristicas res servicio restoCaracteristicas radio
  (r, servicio1, servicio1.activarServicio res radio1)

/-! ## Publicador.h -/

/-- Conversion of an integer to `uint16_t`. -/
def aUint16 (x : Int) : Nat := (x % 2 ^ 16).toNat

/-- Conversion of an integer to `int16_t` (two's complement). -/
def aInt16 (x : Int) : Int :=
  if x % 2 ^ 16 < 2 ^ 15 then x % 2 ^ 16 else x % 2 ^ 16 - 2 ^ 16

/-- Reading of an integer as `int8_t` (two's complement). -/
def aInt8 (x : Int) : Int :=
  if x % 2 ^ 8 < 2 ^ 7 then x % 2 ^ 8 else x % 2 ^ 8 - 2 ^ 8

/-- Conversion of an integer to `uint8_t`. -/
def aUint8 (x : Int) : Nat := (x % 2 ^ 8).toNat

namespace Publicador

/-- The field `beaconUUID` (Publicador.h, lines 34-37): the bytes of
`cholosimeonejefe`. -/
def beaconUUID : List Nat :=
  [99, 104, 111, 108, 111, 115, 105, 109, 101, 111, 110, 101, 106, 101, 102, 101]

/-- The field `laEmisora` (Publicador.h, lines 51-55). -/
def laEmisora : EmisoraBLE :=
  { nombreEmisora := "GTI-3A", fabricanteID := 0x004c, txPower := 4 }

/-- The field `RSSI` (Publicador.h, line 61). -/
def RSSI : Int := -53

/-- The enumerator `MedicionesID::CO2` (Publicador.h, line 74). -/
def MedicionesID.CO2 : Nat := 11

/-- The enumerator `MedicionesID::TEMPERATURA` (Publicador.h, line 75). -/
def MedicionesID.TEMPERATURA : Nat := 12

/-- The enumerator `MedicionesID::RUIDO` (Publicador.h, line 76). -/
def MedicionesID.RUIDO : Nat := 13

/-- Embedding of `Publicador::publicarCO2` (Publicador.h, lines 114-134).  The
local `major` is a `uint16_t`; it is converted to the `int16_t` parameter of
`emitirAnuncioIBeacon`, and the `int` field `RSSI` to its `uint8_t` parameter. -/
def publicarCO2 (valorCO2 : Int) (contador : Nat) (tiempoEspera : Int) (radio : Radio) : Radio :=
  let major : Nat := aUint16 (((MedicionesID.CO2 <<< 8 : Nat) : Int) + (contador : Int))
  let r1 := laEmisora.emitirAnuncioIBeacon beaconUUID (aInt16 major) valorCO2 (aUint8 RSSI) radio
  let r2 := esperar tiempoEspera r1
  laEmisora.detenerAnuncio r2

/-- Embedding of `Publicador::publicarTemperatura` (Publicador.h, lines 147-161). -/
def publicarTemperatura (valorTemperatura : Int) (contador : Nat) (tiempoEspera : Int)
    (radio : Radio) : Radio :=
  let major : Nat := aUint16 (((MedicionesID.TEMPERATURA <<< 8 : Nat) : Int) + (contador : Int))
  let r1 := laEmisora.emitirAnuncioIBeacon beaconUUID (aInt16 major) valorTemperatura
    (aUint8 RSSI) radio
  let r2 := esperar tiempoEspera r1
  laEmisora.detenerAnuncio r2

end Publicador

/-! ## Observations on traces -/

/-- Replays a trace of external calls from a given running flag and tells
whether every `Bluefruit.Advertising.start` happens while the radio is not
advertising. -/
def arranquesSinSolape : Bool → List Llamada → Bool
  | _, [] => true
  | anunciando, .advertisingStart _ :: resto => !anunciando && arranquesSinSolape true resto
  | _, .advertisingStop :: resto => arranquesSinSolape false resto
  | anunciando, _ :: resto => arranquesSinSolape anunciando resto

/-- The target of a start attempt found in the trace: `none` for the `begin` of
the service, `some uuid` for the `begin` of a characteristic; calls that are not
start attempts give nothing. -/
def intentoDeInicio : Llamada → Option (Option (List Nat))
  | .servicioBegin _ _ => some none
  | .caracteristicaBegin uuid _ => some (some uuid)
  | _ => none

/-- The manufacturer-specific data a call adds to the advertisement, with the
length passed along, for the calls that are `Bluefruit.Advertising.addData` of
type manufacturer-specific data. -/
def datosDeFabricante : Llamada → Option (List Nat × Nat)
  | .advertisingAddManufacturerData datos longitud => some (datos, longitud)
  | _ => none

/-- The beacon a call sets on the advertisement, for the calls that are
`Bluefruit.Advertising.setBeacon`. -/
def beaconAnunciado : Llamada → Option BLEBeacon
  | .advertisingSetBeacon elBeacon => some elBeacon
  | _ => none

/-- The `major` arguments of the beacons set on the advertisement by a trace of
calls, in order. -/
def majoresAnunciados (llamadas : List Llamada) : List Int :=
  (llamadas.filterMap beaconAnunciado).map BLEBeacon.major

/-- The measured-power (`rssi`) arguments of the beacons set on the
advertisement by a trace of calls, in order. -/
def rssiAnunciados (llamadas : List Llamada) : List Nat :=
  (llamadas.filterMap beaconAnunciado).map BLEBeacon.rssi

/-- The result a call of `Bluefruit.Advertising.addService` returned, for the
calls that are one. -/
def resultadoAddService : Llamada → Option Bool
  | .advertisingAddService _ resultado => some resultado
  | _ => none

/-- The error code a start attempt returned, for the calls that are start
attempts. -/
def errorDeInicio : Llamada → Option Nat
  | .servicioBegin _ error => some error
  | .caracteristicaBegin _ error => some error
  | _ => none

/-! ## Lemmas on `stringAUint8AlReves` -/

/-- After `k` rounds of the copy loop the buffer keeps its length, holds
`pString[i]` at index `tamMax - 1 - i` for `i < k`, and is untouched below
`tamMax - k`. -/
theorem bucle_copia_getElem? (pString pUint : List Nat) (tamMax : Nat)
    (hbuf : pUint.length = tamMax) (k : Nat) (hk : k ≤ tamMax) (hs : k ≤ pString.length) :
    ((List.range k).foldl
        (fun buf i => buf.set (tamMax - i - 1) (pString.getD i 0)) pUint).length = tamMax ∧
    ∀ j, ((List.range k).foldl
        (fun buf i => buf.set (tamMax - i - 1) (pString.getD i 0)) pUint)[j]? =
      if tamMax - k ≤ j ∧ j < tamMax then pString[tamMax - 1 - j]? else pUint[j]? := by
  induction k with
  | zero =>
    refine ⟨by simpa using hbuf, fun j => ?_⟩
    have hno : ¬ (tamMax - 0 ≤ j ∧ j < tamMax) := by omega
    rw [if_neg hno]
    rfl
  | succ k ih =>
    obtain ⟨hlen, hget⟩ := ih (by omega) (by omega)
    rw [List.range_succ, List.foldl_append]
    simp only [List.foldl_cons, List.foldl_nil]
    refine ⟨by rw [List.length_set]; exact hlen, fun j => ?_⟩
    rw [List.getElem?_set, hlen, hget j]
    by_cases hj : tamMax - k - 1 = j
    · have h1 : tamMax - k - 1 < tamMax := by omega
      have h2 : tamMax - (k + 1) ≤ j ∧ j < tamMax := by omega
      have h3 : tamMax - 1 - j = k := by omega
      have h4 : k < pString.length := by omega
      rw [if_pos hj, if_pos h1, if_pos h2, h3, List.getD_eq_getElem?_getD,
        List.getElem?_eq_getElem h4]
      rfl
    · rw [if_neg hj]
      by_cases hin : tamMax - k ≤ j ∧ j < tamMax
      · have h2 : tamMax - (k + 1) ≤ j ∧ j < tamMax := by omega
        rw [if_pos hin, if_pos h2]
      · have h2 : ¬ (tamMax - (k + 1) ≤ j ∧ j < tamMax) := by omega
        rw [if_neg hin, if_neg h2]

/-- Byte `j` of the result of `stringAUint8AlReves` on a buffer of `tamMax`
bytes: the reversed name in the last `min (length name) tamMax` places, the old
buffer before them. -/
theorem stringAUint8AlReves_getElem? (pString pUint : List Nat) (tamMax : Nat)
    (hbuf : pUint.length = tamMax) :
    (stringAUint8AlReves pString pUint tamMax).length = tamMax ∧
    ∀ j, (stringAUint8AlReves pString pUint tamMax)[j]? =
      if tamMax - min pString.length tamMax ≤ j ∧ j < tamMax
      then pString[tamMax - 1 - j]? else pUint[j]? := by
  unfold stringAUint8AlReves
  by_cases h : pString.length > tamMax
  · have hmin : min pString.length tamMax = tamMax := by omega
    simp only [h, if_true, hmin]
    exact bucle_copia_getElem? pString pUint tamMax hbuf tamMax (le_refl _) (by omega)
  · have hmin : min pString.length tamMax = pString.length := by omega
    simp only [h, if_false, hmin]
    exact bucle_copia_getElem? pString pUint tamMax hbuf pString.length (by omega) (le_refl _)

/-- A name of at least 16 characters overwrites the whole 16-byte buffer with
its first 16 characters in reverse order. -/
theorem stringAUint8AlReves_largo (pString pUint : List Nat)
    (hbuf : pUint.length = 16) (hlen : 16 ≤ pString.length) :
    stringAUint8AlReves pString pUint 16 = (pString.take 16).reverse := by
  obtain ⟨_, hget⟩ := stringAUint8AlReves_getElem? pString pUint 16 hbuf
  apply List.ext_getElem?
  intro j
  rw [hget j]
  have hmin : min pString.length 16 = 16 := by omega
  rw [hmin]
  by_cases hj : j < 16
  · have hc : 16 - 16 ≤ j ∧ j < 16 := by omega
    have htl : (pString.take 16).length = 16 := by simp; omega
    rw [if_pos hc, List.getElem?_reverse (by omega), htl, List.getElem?_take]
    have : 16 - 1 - j < 16 := by omega
    simp [this]
  · have hc : ¬ (16 - 16 ≤ j ∧ j < 16) := by omega
    have htl : (pString.take 16).reverse.length = 16 := by simp; omega
    rw [if_neg hc, List.getElem?_eq_none (by omega), List.getElem?_eq_none (by omega)]

/-! ## C1, C2 : the UUID codec -/

/-- C1: for every name and every 16-byte default buffer, with
`n = min (length name) 16`, the buffer returned by
`stringAUint8AlReves name buffer 16` has 16 bytes, its bytes at the indices
below `16 - n` are those of the default buffer, and its byte at index `15 - i`
is `name[i]` for every `i < n`; an empty name returns the buffer unchanged; the
default `0123456789ABCDEF` with the name `ABC` ends in `C`, `B`, `A` with bytes
0 to 12 unchanged. -/
theorem c1_stringAUint8AlReves_sobrescribe_el_final (name buffer : List Nat)
    (hbuf : buffer.length = 16) :
    (stringAUint8AlReves name buffer 16).length = 16 ∧
    (∀ j, j < 16 - min name.length 16 →
      (stringAUint8AlReves name buffer 16)[j]? = buffer[j]?) ∧
    (∀ i, i < min name.length 16 →
      (stringAUint8AlReves name buffer 16)[15 - i]? = some (name.getD i 0) ∧
      name[i]? = some (name.getD i 0)) ∧
    stringAUint8AlReves [] buffer 16 = buffer ∧
    stringAUint8AlReves [65, 66, 67] uuidPorDefecto 16 =
      [48, 49, 50, 51, 52, 53, 54, 55, 56, 57, 65, 66, 67, 67, 66, 65] := by
  obtain ⟨hlen, hget⟩ := stringAUint8AlReves_getElem? name buffer 16 hbuf
  refine ⟨hlen, ?_, ?_, rfl, by decide⟩
  · intro j hj
    have hc : ¬ (16 - min name.length 16 ≤ j ∧ j < 16) := by omega
    rw [hget j, if_neg hc]
  · intro i hi
    have hc : 16 - min name.length 16 ≤ 15 - i ∧ 15 - i < 16 := by omega
    have hidx : 16 - 1 - (15 - i) = i := by omega
    have hin : i < name.length := by omega
    have hname : name[i]? = some (name.getD i 0) := by
      rw [List.getD_eq_getElem?_getD, List.getElem?_eq_getElem hin]
      rfl
    rw [hget (15 - i), if_pos hc, hidx]
    exact ⟨hname, hname⟩

/-- Witness of C1 at the name `ABC` and the default pattern. -/
theorem c1_stringAUint8AlReves_sobrescribe_el_final_witness :
    uuidPorDefecto.length = 16 ∧
    (∀ j, j < 16 - min [65, 66, 67].length 16 →
      (stringAUint8AlReves [65, 66, 67] uuidPorDefecto 16)[j]? = uuidPorDefecto[j]?) :=
  ⟨by decide,
    (c1_stringAUint8AlReves_sobrescribe_el_final [65, 66, 67] uuidPorDefecto (by decide)).2.1⟩

/-- C2: for every name longer than 16 characters and every 16-byte buffer,
`stringAUint8AlReves name buffer 16` is the result for the 16-character prefix
of the name; it is that prefix reversed, so every byte comes from the name and
none from the default buffer; and every name that agrees with it on the first
16 characters gives the same output, whatever the buffer. -/
theorem c2_stringAUint8AlReves_solo_los_primeros_16 (name buffer : List Nat)
    (hbuf : buffer.length = 16) (hlen : 16 < name.length) :
    stringAUint8AlReves name buffer 16 = stringAUint8AlReves (name.take 16) buffer 16 ∧
    stringAUint8AlReves name buffer 16 = (name.take 16).reverse ∧
    (∀ j, j < 16 → (stringAUint8AlReves name buffer 16)[j]? = name[15 - j]?) ∧
    (∀ otro otroBuffer : List Nat, otroBuffer.length = 16 → otro.take 16 = name.take 16 →
      stringAUint8AlReves otro otroBuffer 16 = stringAUint8AlReves name buffer 16) := by
  have hfull := stringAUint8AlReves_largo name buffer hbuf (by omega)
  have htl : (name.take 16).length = 16 := by simp; omega
  refine ⟨?_, hfull, ?_, ?_⟩
  · rw [hfull, stringAUint8AlReves_largo (name.take 16) buffer hbuf (by omega)]
    simp
  · intro j hj
    obtain ⟨_, hget⟩ := stringAUint8AlReves_getElem? name buffer 16 hbuf
    have hc : 16 - min name.length 16 ≤ j ∧ j < 16 := by omega
    rw [hget j, if_pos hc]
  · intro otro otroBuffer hob hpre
    have hol : 16 ≤ otro.length := by
      have h1 : (otro.take 16).length = 16 := by rw [hpre]; exact htl
      rw [List.length_take] at h1
      omega
    rw [hfull, stringAUint8AlReves_largo otro otroBuffer hob hol, hpre]

/-- Witness of C2 at the 18-character name `ABCDEFGHIJKLMNOPQR` (no byte of it
is NUL, so it is the content of a C string of length 18): the result is
`PONMLKJIHGFEDCBA`, the last two characters `Q` and `R` never reach the buffer
and no byte of the default pattern is left. -/
theorem c2_stringAUint8AlReves_solo_los_primeros_16_witness :
    uuidPorDefecto.length = 16 ∧
    16 < [65, 66, 67, 68, 69, 70, 71, 72, 73, 74, 75, 76, 77, 78, 79, 80, 81, 82].length ∧
    0 ∉ [65, 66, 67, 68, 69, 70, 71, 72, 73, 74, 75, 76, 77, 78, 79, 80, 81, 82] ∧
    stringAUint8AlReves [65, 66, 67, 68, 69, 70, 71, 72, 73, 74, 75, 76, 77, 78, 79, 80, 81, 82]
        uuidPorDefecto 16 =
      [80, 79, 78, 77, 76, 75, 74, 73, 72, 71, 70, 69, 68, 67, 66, 65] :=
  ⟨by decide, by decide, by decide,
    (c2_stringAUint8AlReves_solo_los_primeros_16
      [65, 66, 67, 68, 69, 70, 71, 72, 73, 74, 75, 76, 77, 78, 79, 80, 81, 82]
      uuidPorDefecto (by decide) (by decide)).2.1.trans (by decide)⟩

/-! ## Lemmas on `memcpy` and on the traces of `EmisoraBLE` -/

/-- The array after `memcpy` keeps its length; the bytes in the window
`[desde, desde + n)` come from `src`, every other byte is untouched. -/
theorem memcpy_getElem? (dest : List Nat) (desde : Nat) (src : List Nat) (n : Nat) :
    (memcpy dest desde src n).length = dest.length ∧
    ∀ j, (memcpy dest desde src n)[j]? =
      if desde ≤ j ∧ j < desde + n ∧ j < dest.length then some (src.getD (j - desde) 0)
      else dest[j]? := by
  induction n with
  | zero =>
    refine ⟨rfl, fun j => ?_⟩
    have hno : ¬ (desde ≤ j ∧ j < desde + 0 ∧ j < dest.length) := by omega
    rw [if_neg hno]
    rfl
  | succ n ih =>
    obtain ⟨hlen, hget⟩ := ih
    refine ⟨by rw [memcpy, List.length_set]; exact hlen, fun j => ?_⟩
    rw [memcpy, List.getElem?_set, hlen, hget j]
    by_cases hj : desde + n = j
    · rw [if_pos hj]
      by_cases hin : desde + n < dest.length
      · have h2 : desde ≤ j ∧ j < desde + (n + 1) ∧ j < dest.length := by omega
        have h3 : j - desde = n := by omega
        rw [if_pos hin, if_pos h2, h3]
      · have h2 : ¬ (desde ≤ j ∧ j < desde + (n + 1) ∧ j < dest.length) := by omega
        have h3 : ¬ (desde ≤ j ∧ j < desde + n ∧ j < dest.length) := by omega
        rw [if_neg hin, if_neg h2, List.getElem?_eq_none (by omega)]
    · rw [if_neg hj]
      by_cases hin : desde ≤ j ∧ j < desde + n ∧ j < dest.length
      · have h2 : desde ≤ j ∧ j < desde + (n + 1) ∧ j < dest.length := by omega
        rw [if_pos hin, if_pos h2]
      · have h2 : ¬ (desde ≤ j ∧ j < desde + (n + 1) ∧ j < dest.length) := by omega
        rw [if_neg hin, if_neg h2]

/-- The external calls `detenerAnuncio` adds to the trace. -/
theorem detenerAnuncio_eq (emisora : EmisoraBLE) (radio : Radio) :
    emisora.detenerAnuncio radio =
      { anunciando := false,
        llamadas := radio.llamadas ++ (if radio.anunciando then [Llamada.advertisingStop] else []) } := by
  cases radio with
  | mk anunciando llamadas =>
    cases anunciando <;>
      simp [EmisoraBLE.detenerAnuncio, EmisoraBLE.estaAnunciando, Radio.llamar]

/-- The radio state after `emitirAnuncioIBeaconLibre`. -/
theorem emitirAnuncioIBeaconLibre_eq (emisora : EmisoraBLE) (carga : List Nat)
    (tamanyoCarga : Nat) (radio : Radio) :
    emisora.emitirAnuncioIBeaconLibre carga tamanyoCarga radio =
      { anunciando := true,
        llamadas := radio.llamadas ++ (if radio.anunciando then [Llamada.advertisingStop] else []) ++
          [.advertisingClearData, .scanResponseClearData, .setName emisora.nombreEmisora,
           .scanResponseAddName, .advertisingAddFlagsLeOnlyGeneralDiscMode,
           .advertisingAddManufacturerData (restoPrefijoYCarga carga tamanyoCarga) 25,
           .advertisingRestartOnDisconnect true, .advertisingSetInterval 100 100,
           .advertisingSetFastTimeout 1, .advertisingStart 0] } := by
  simp [EmisoraBLE.emitirAnuncioIBeaconLibre, detenerAnuncio_eq, Radio.llamar]

/-- The radio state after `emitirAnuncioIBeacon`. -/
theorem emitirAnuncioIBeacon_eq (emisora : EmisoraBLE) (beaconUUID : List Nat)
    (major minor : Int) (rssi : Nat) (radio : Radio) :
    emisora.emitirAnuncioIBeacon beaconUUID major minor rssi radio =
      { anunciando := true,
        llamadas := radio.llamadas ++ (if radio.anunciando then [Llamada.advertisingStop] else []) ++
          [.setTxPower emisora.txPower, .setName emisora.nombreEmisora, .scanResponseAddName,
           .advertisingSetBeacon
             { uuid := beaconUUID, major := major, minor := minor, rssi := rssi,
               manufacturer := emisora.fabricanteID },
           .advertisingRestartOnDisconnect true, .advertisingSetInterval 100 100,
           .advertisingStart 0] } := by
  simp [EmisoraBLE.emitirAnuncioIBeacon, detenerAnuncio_eq, Radio.llamar]

/-! ## C3, C4, C5 : the free-form advertisement -/

/-- The length of the local array `restoPrefijoYCarga` is 25 whatever is
copied into it. -/
theorem restoPrefijoYCarga_length (carga : List Nat) (tamanyoCarga : Nat) :
    (restoPrefijoYCarga carga tamanyoCarga).length = 25 := by
  unfold restoPrefijoYCarga
  rw [(memcpy_getElem? _ _ _ _).1]
  rfl

/-- C3: at the payload `HELLO` with declared length 5, the 21-byte payload
field that `emitirAnuncioIBeaconLibre` hands to the radio has the input in bytes
0 to 4 and the filler `'-'` (45) in bytes 5 to 16 only; bytes 17 to 20 are 0,
not the filler, because the initialiser of `restoPrefijoYCarga` lists seventeen
fillers for the 21 payload places. -/
theorem c3_campoCarga_relleno_incompleto :
    campoCarga [72, 69, 76, 76, 79] 5 =
      [72, 69, 76, 76, 79, 45, 45, 45, 45, 45, 45, 45, 45, 45, 45, 45, 45, 0, 0, 0, 0] ∧
    (campoCarga [72, 69, 76, 76, 79] 5)[17]? = some 0 ∧
    ¬ (∀ j, 5 ≤ j → j < 21 → (campoCarga [72, 69, 76, 76, 79] 5)[j]? = some 45) ∧
    ((Publicador.laEmisora.emitirAnuncioIBeaconLibre [72, 69, 76, 76, 79] 5
        { anunciando := false, llamadas := [] }).llamadas.filterMap datosDeFabricante) =
      [([0x4c, 0x00, 0x02, 21, 72, 69, 76, 76, 79,
         45, 45, 45, 45, 45, 45, 45, 45, 45, 45, 45, 45, 0, 0, 0, 0], 25)] := by
  refine ⟨by decide, by decide, ?_, by decide⟩
  intro h
  have h17 := h 17 (by decide) (by decide)
  revert h17
  decide

/-- C4: for every payload whose declared length is greater than 21 (and that
holds at least the 21 bytes that are read), the 21-byte payload field handed to
the radio is exactly the first 21 bytes of the input; the bytes of the input
from index 21 on have no influence on it, and it is this buffer that
`emitirAnuncioIBeaconLibre` adds to the advertisement. -/
theorem c4_campoCarga_trunca_a_21 (emisora : EmisoraBLE) (carga : List Nat)
    (tamanyoCarga : Nat) (radio : Radio)
    (htam : 21 < tamanyoCarga) (hcarga : 21 ≤ carga.length) :
    campoCarga carga tamanyoCarga = carga.take 21 ∧
    (campoCarga carga tamanyoCarga).length = 21 ∧
    (∀ otra : List Nat, otra.take 21 = carga.take 21 →
      campoCarga otra tamanyoCarga = campoCarga carga tamanyoCarga) ∧
    ((emisora.emitirAnuncioIBeaconLibre carga tamanyoCarga radio).llamadas.drop
        radio.llamadas.length).filterMap datosDeFabricante =
      [([0x4c, 0x00, 0x02, 21] ++ carga.take 21, 25)] := by
  have hcampo : ∀ c : List Nat, 21 ≤ c.length → campoCarga c tamanyoCarga = c.take 21 := by
    intro c hc
    apply List.ext_getElem?
    intro j
    unfold campoCarga restoPrefijoYCarga
    rw [List.getElem?_drop, if_pos htam, (memcpy_getElem? _ _ _ _).2]
    have hl : restoPrefijoYCargaInicial.length = 25 := rfl
    rw [hl, List.getElem?_take]
    by_cases hj : j < 21
    · have hc1 : 4 ≤ 4 + j ∧ 4 + j < 4 + 21 ∧ 4 + j < 25 := by omega
      have hidx : 4 + j - 4 = j := by omega
      rw [if_pos hc1, if_pos hj, hidx, List.getD_eq_getElem?_getD,
        List.getElem?_eq_getElem (by omega)]
      rfl
    · have hc1 : ¬ (4 ≤ 4 + j ∧ 4 + j < 4 + 21 ∧ 4 + j < 25) := by omega
      rw [if_neg hc1, if_neg hj, List.getElem?_eq_none (by rw [hl]; omega)]
  have hresto : restoPrefijoYCarga carga tamanyoCarga = [0x4c, 0x00, 0x02, 21] ++ carga.take 21 := by
    have h4 : (restoPrefijoYCarga carga tamanyoCarga).take 4 = [0x4c, 0x00, 0x02, 21] := by
      apply List.ext_getElem?
      intro j
      unfold restoPrefijoYCarga
      rw [List.getElem?_take, (memcpy_getElem? _ _ _ _).2]
      by_cases hj : j < 4
      · have hc1 : ¬ (4 ≤ j ∧ j < 4 + (if tamanyoCarga > 21 then 21 else tamanyoCarga) ∧
            j < restoPrefijoYCargaInicial.length) := by omega
        rw [if_pos hj, if_neg hc1]
        interval_cases j <;> rfl
      · rw [if_neg hj, List.getElem?_eq_none (by simp; omega)]
    have hsplit := List.take_append_drop 4 (restoPrefijoYCarga carga tamanyoCarga)
    rw [h4] at hsplit
    rw [← hsplit]
    congr 1
    exact hcampo carga hcarga
  refine ⟨hcampo carga hcarga, ?_, ?_, ?_⟩
  · rw [hcampo carga hcarga, List.length_take]
    omega
  · intro otra hotra
    have hol : 21 ≤ otra.length := by
      have h1 : (otra.take 21).length = 21 := by
        rw [hotra, List.length_take]
        omega
      rw [List.length_take] at h1
      omega
    rw [hcampo carga hcarga, hcampo otra hol, hotra]
  · rw [emitirAnuncioIBeaconLibre_eq, List.append_assoc, List.drop_left, hresto]
    cases radio.anunciando <;> simp [datosDeFabricante]

/-- Witness of C4 at a payload of 30 bytes declared as 30. -/
theorem c4_campoCarga_trunca_a_21_witness :
    21 < 30 ∧ 21 ≤ (List.range 30).length ∧
    campoCarga (List.range 30) 30 = List.range 21 :=
  ⟨by decide, by decide,
    (c4_campoCarga_trunca_a_21 Publicador.laEmisora (List.range 30) 30
      { anunciando := false, llamadas := [] } (by decide) (by decide)).1.trans (by decide)⟩

/-- The copy of the payload starts at index 4 and leaves the four header bytes
of `restoPrefijoYCarga` as initialised. -/
theorem restoPrefijoYCarga_cabecera (carga : List Nat) (tamanyoCarga : Nat) :
    (restoPrefijoYCarga carga tamanyoCarga).take 4 = [0x4c, 0x00, 0x02, 21] := by
  apply List.ext_getElem?
  intro j
  unfold restoPrefijoYCarga
  rw [List.getElem?_take, (memcpy_getElem? _ _ _ _).2]
  by_cases hj : j < 4
  · have hc1 : ¬ (4 ≤ j ∧ j < 4 + (if tamanyoCarga > 21 then 21 else tamanyoCarga) ∧
        j < restoPrefijoYCargaInicial.length) := by omega
    rw [if_pos hj, if_neg hc1]
    interval_cases j <;> rfl
  · rw [if_neg hj, List.getElem?_eq_none (by simp; omega)]

/-- C5: for every payload and every declared length, the only
manufacturer-specific data `emitirAnuncioIBeaconLibre` adds to the advertisement
is the buffer `restoPrefijoYCarga` with length argument 25; the buffer is 25
bytes long and its first four bytes are the header `0x4c, 0x00, 0x02, 0x15`,
whatever the payload copy wrote. -/
theorem c5_datos_de_fabricante_25_bytes_con_cabecera (emisora : EmisoraBLE)
    (carga : List Nat) (tamanyoCarga : Nat) (radio : Radio) :
    ((emisora.emitirAnuncioIBeaconLibre carga tamanyoCarga radio).llamadas.drop
        radio.llamadas.length).filterMap datosDeFabricante =
      [(restoPrefijoYCarga carga tamanyoCarga, 25)] ∧
    (restoPrefijoYCarga carga tamanyoCarga).length = 25 ∧
    (restoPrefijoYCarga carga tamanyoCarga).take 4 = [0x4c, 0x00, 0x02, 0x15] ∧
    (restoPrefijoYCarga carga tamanyoCarga).take 4 = restoPrefijoYCargaInicial.take 4 := by
  refine ⟨?_, restoPrefijoYCarga_length carga tamanyoCarga,
    restoPrefijoYCarga_cabecera carga tamanyoCarga,
    (restoPrefijoYCarga_cabecera carga tamanyoCarga).trans rfl⟩
  rw [emitirAnuncioIBeaconLibre_eq, List.append_assoc, List.drop_left]
  cases radio.anunciando <;> simp [datosDeFabricante]

/-! ## C6 : major and minor of a publication -/

/-- For a kind identifier below 128 and an 8-bit counter, the sum
`(id << 8) + contador` fits in `uint16_t` and in `int16_t`, and equals the
bitwise OR. -/
theorem major_sin_desbordar (id contador : Nat) (hid : id < 128) (hc : contador < 256) :
    aInt16 (aUint16 (((id <<< 8 : Nat) : Int) + (contador : Int)))
      = (((id <<< 8) ||| contador : Nat) : Int) := by
  have h1 : id <<< 8 = 2 ^ 8 * id := by rw [Nat.shiftLeft_eq, Nat.mul_comm]
  have hor : 2 ^ 8 * id + contador = 2 ^ 8 * id ||| contador := Nat.mul_add_lt_is_or hc id
  rw [h1, ← hor]
  unfold aUint16 aInt16
  push_cast
  omega

/-- C6: for every 8-bit counter and every value, `publicarCO2` calls
`emitirAnuncioIBeacon` with major `(11 << 8) | contador` and minor the value,
and `publicarTemperatura` with major `(12 << 8) | contador` and minor the value:
the sum the code computes equals the bitwise OR and survives the conversions to
`uint16_t` and `int16_t`; the beacon set on the radio carries these two fields;
for CO2, value 400 and counter 7 the major is 2823 and the minor 400. -/
theorem c6_major_y_minor_de_la_publicacion (valor : Int) (contador : Nat)
    (tiempoEspera : Int) (radio : Radio) (hcont : contador < 256) :
    Publicador.publicarCO2 valor contador tiempoEspera radio =
      Publicador.laEmisora.detenerAnuncio (esperar tiempoEspera
        (Publicador.laEmisora.emitirAnuncioIBeacon Publicador.beaconUUID
          (((11 <<< 8) ||| contador : Nat) : Int) valor (aUint8 Publicador.RSSI) radio)) ∧
    Publicador.publicarTemperatura valor contador tiempoEspera radio =
      Publicador.laEmisora.detenerAnuncio (esperar tiempoEspera
        (Publicador.laEmisora.emitirAnuncioIBeacon Publicador.beaconUUID
          (((12 <<< 8) ||| contador : Nat) : Int) valor (aUint8 Publicador.RSSI) radio)) ∧
    (((Publicador.publicarCO2 valor contador tiempoEspera radio).llamadas.drop
        radio.llamadas.length).filterMap beaconAnunciado).map
          (fun elBeacon => (elBeacon.major, elBeacon.minor)) =
      [((((11 <<< 8) ||| contador : Nat) : Int), valor)] ∧
    (((Publicador.publicarTemperatura valor contador tiempoEspera radio).llamadas.drop
        radio.llamadas.length).filterMap beaconAnunciado).map
          (fun elBeacon => (elBeacon.major, elBeacon.minor)) =
      [((((12 <<< 8) ||| contador : Nat) : Int), valor)] ∧
    (((Publicador.publicarCO2 400 7 50 { anunciando := false, llamadas := [] }).llamadas.filterMap
        beaconAnunciado).map (fun elBeacon => (elBeacon.major, elBeacon.minor)) =
      [(2823, 400)]) := by
  have hco2 := major_sin_desbordar 11 contador (by decide) hcont
  have htemp := major_sin_desbordar 12 contador (by decide) hcont
  have e1 : Publicador.publicarCO2 valor contador tiempoEspera radio =
      Publicador.laEmisora.detenerAnuncio (esperar tiempoEspera
        (Publicador.laEmisora.emitirAnuncioIBeacon Publicador.beaconUUID
          (((11 <<< 8) ||| contador : Nat) : Int) valor (aUint8 Publicador.RSSI) radio)) := by
    unfold Publicador.publicarCO2 Publicador.MedicionesID.CO2
    simp only [hco2]
  have e2 : Publicador.publicarTemperatura valor contador tiempoEspera radio =
      Publicador.laEmisora.detenerAnuncio (esperar tiempoEspera
        (Publicador.laEmisora.emitirAnuncioIBeacon Publicador.beaconUUID
          (((12 <<< 8) ||| contador : Nat) : Int) valor (aUint8 Publicador.RSSI) radio)) := by
    unfold Publicador.publicarTemperatura Publicador.MedicionesID.TEMPERATURA
    simp only [htemp]
  refine ⟨e1, e2, ?_, ?_, by decide⟩
  · rw [e1, detenerAnuncio_eq, esperar, emitirAnuncioIBeacon_eq]
    cases radio.anunciando <;> simp [Radio.llamar, beaconAnunciado]
  · rw [e2, detenerAnuncio_eq, esperar, emitirAnuncioIBeacon_eq]
    cases radio.anunciando <;> simp [Radio.llamar, beaconAnunciado]

/-- Witness of C6 at the value 400 and the counter 7, from an idle radio. -/
theorem c6_major_y_minor_de_la_publicacion_witness :
    7 < 256 ∧
    Publicador.publicarCO2 400 7 50 { anunciando := false, llamadas := [] } =
      Publicador.laEmisora.detenerAnuncio (esperar 50
        (Publicador.laEmisora.emitirAnuncioIBeacon Publicador.beaconUUID
          (((11 <<< 8) ||| 7 : Nat) : Int) 400 (aUint8 Publicador.RSSI)
          { anunciando := false, llamadas := [] })) :=
  ⟨by decide,
    (c6_major_y_minor_de_la_publicacion 400 7 50 { anunciando := false, llamadas := [] }
      (by decide)).1⟩

/-! ## C7, C8 : stopping, and the publish cycle -/

/-- C7: `detenerAnuncio` is idempotent over the radio state.  From every state
it leaves `estaAnunciando` false; the calls it adds to the trace are the single
`Bluefruit.Advertising.stop` when the radio was running and none otherwise, so
on a radio that is not running (never started, or already stopped) it changes
nothing; and calling it twice gives the state of calling it once. -/
theorem c7_detenerAnuncio_idempotente (emisora : EmisoraBLE) (radio : Radio)
    (llamadas : List Llamada) :
    emisora.estaAnunciando (emisora.detenerAnuncio radio) = false ∧
    (emisora.detenerAnuncio radio).llamadas =
      radio.llamadas ++ (if radio.anunciando then [Llamada.advertisingStop] else []) ∧
    (((emisora.detenerAnuncio radio).llamadas.drop radio.llamadas.length).count
        Llamada.advertisingStop = 1 ↔ radio.anunciando = true) ∧
    emisora.detenerAnuncio { anunciando := false, llamadas := llamadas } =
      { anunciando := false, llamadas := llamadas } ∧
    emisora.detenerAnuncio { anunciando := true, llamadas := llamadas } =
      { anunciando := false, llamadas := llamadas ++ [Llamada.advertisingStop] } ∧
    emisora.detenerAnuncio (emisora.detenerAnuncio radio) = emisora.detenerAnuncio radio := by
  refine ⟨?_, ?_, ?_, ?_, ?_, ?_⟩
  · rw [detenerAnuncio_eq]
    rfl
  · rw [detenerAnuncio_eq]
  · rw [detenerAnuncio_eq, List.drop_left]
    cases radio.anunciando <;> simp
  · rw [detenerAnuncio_eq]
    simp
  · rw [detenerAnuncio_eq]
    simp
  · rw [detenerAnuncio_eq, detenerAnuncio_eq]
    simp

/-- The radio state after `publicarCO2`. -/
theorem publicarCO2_eq (valorCO2 : Int) (contador : Nat) (tiempoEspera : Int) (radio : Radio) :
    Publicador.publicarCO2 valorCO2 contador tiempoEspera radio =
      { anunciando := false,
        llamadas := radio.llamadas ++ (if radio.anunciando then [Llamada.advertisingStop] else []) ++
          [.setTxPower 4, .setName "GTI-3A", .scanResponseAddName,
           .advertisingSetBeacon
             { uuid := Publicador.beaconUUID,
               major := aInt16 (aUint16 (((Publicador.MedicionesID.CO2 <<< 8 : Nat) : Int) + (contador : Int))),
               minor := valorCO2, rssi := aUint8 Publicador.RSSI, manufacturer := 0x004c },
           .advertisingRestartOnDisconnect true, .advertisingSetInterval 100 100,
           .advertisingStart 0, .delay tiempoEspera, .advertisingStop] } := by
  simp [Publicador.publicarCO2, detenerAnuncio_eq, esperar, emitirAnuncioIBeacon_eq, Radio.llamar,
    Publicador.laEmisora]

/-- The radio state after `publicarTemperatura`. -/
theorem publicarTemperatura_eq (valorTemperatura : Int) (contador : Nat) (tiempoEspera : Int)
    (radio : Radio) :
    Publicador.publicarTemperatura valorTemperatura contador tiempoEspera radio =
      { anunciando := false,
        llamadas := radio.llamadas ++ (if radio.anunciando then [Llamada.advertisingStop] else []) ++
          [.setTxPower 4, .setName "GTI-3A", .scanResponseAddName,
           .advertisingSetBeacon
             { uuid := Publicador.beaconUUID,
               major := aInt16 (aUint16 (((Publicador.MedicionesID.TEMPERATURA <<< 8 : Nat) : Int) + (contador : Int))),
               minor := valorTemperatura, rssi := aUint8 Publicador.RSSI, manufacturer := 0x004c },
           .advertisingRestartOnDisconnect true, .advertisingSetInterval 100 100,
           .advertisingStart 0, .delay tiempoEspera, .advertisingStop] } := by
  simp [Publicador.publicarTemperatura, detenerAnuncio_eq, esperar, emitirAnuncioIBeacon_eq,
    Radio.llamar, Publicador.laEmisora]

/-- C8: from every radio state, one call of `publicarCO2` or of
`publicarTemperatura` makes these external calls in this order: the stop of
the advertisement if one is running, the configuration and the start of the
iBeacon frame, the wait of the dwell time, the stop.  The radio is advertising
after the frame is started, no start happens while the radio is advertising,
and the radio is idle when the call returns. -/
theorem c8_ciclo_de_publicacion (valor : Int) (contador : Nat) (tiempoEspera : Int)
    (radio : Radio) :
    (Publicador.publicarCO2 valor contador tiempoEspera radio).llamadas.drop radio.llamadas.length =
      (if radio.anunciando then [Llamada.advertisingStop] else []) ++
        [.setTxPower 4, .setName "GTI-3A", .scanResponseAddName,
         .advertisingSetBeacon
           { uuid := Publicador.beaconUUID,
             major := aInt16 (aUint16 (((Publicador.MedicionesID.CO2 <<< 8 : Nat) : Int) + (contador : Int))),
             minor := valor, rssi := aUint8 Publicador.RSSI, manufacturer := 0x004c },
         .advertisingRestartOnDisconnect true, .advertisingSetInterval 100 100,
         .advertisingStart 0, .delay tiempoEspera, .advertisingStop] ∧
    (Publicador.publicarTemperatura valor contador tiempoEspera radio).llamadas.drop
        radio.llamadas.length =
      (if radio.anunciando then [Llamada.advertisingStop] else []) ++
        [.setTxPower 4, .setName "GTI-3A", .scanResponseAddName,
         .advertisingSetBeacon
           { uuid := Publicador.beaconUUID,
             major := aInt16 (aUint16 (((Publicador.MedicionesID.TEMPERATURA <<< 8 : Nat) : Int) + (contador : Int))),
             minor := valor, rssi := aUint8 Publicador.RSSI, manufacturer := 0x004c },
         .advertisingRestartOnDisconnect true, .advertisingSetInterval 100 100,
         .advertisingStart 0, .delay tiempoEspera, .advertisingStop] ∧
    (∀ (major minor : Int) (rssi : Nat),
      Publicador.laEmisora.estaAnunciando
        (Publicador.laEmisora.emitirAnuncioIBeacon Publicador.beaconUUID major minor rssi radio)
        = true) ∧
    arranquesSinSolape radio.anunciando
      ((Publicador.publicarCO2 valor contador tiempoEspera radio).llamadas.drop
        radio.llamadas.length) = true ∧
    arranquesSinSolape radio.anunciando
      ((Publicador.publicarTemperatura valor contador tiempoEspera radio).llamadas.drop
        radio.llamadas.length) = true ∧
    Publicador.laEmisora.estaAnunciando
      (Publicador.publicarCO2 valor contador tiempoEspera radio) = false ∧
    Publicador.laEmisora.estaAnunciando
      (Publicador.publicarTemperatura valor contador tiempoEspera radio) = false := by
  refine ⟨?_, ?_, ?_, ?_, ?_, ?_, ?_⟩
  · rw [publicarCO2_eq, List.append_assoc, List.drop_left]
  · rw [publicarTemperatura_eq, List.append_assoc, List.drop_left]
  · intro major minor rssi
    rw [emitirAnuncioIBeacon_eq]
    rfl
  · rw [publicarCO2_eq, List.append_assoc, List.drop_left]
    cases radio.anunciando <;> simp [arranquesSinSolape]
  · rw [publicarTemperatura_eq, List.append_assoc, List.drop_left]
    cases radio.anunciando <;> simp [arranquesSinSolape]
  · rw [publicarCO2_eq]
    rfl
  · rw [publicarTemperatura_eq]
    rfl

/-! ## Lemmas on the composition and the activation of a service -/

/-- A left-to-right fold of `anyadirCaracteristica` appends the whole sequence
to the list of the service. -/
theorem foldl_anyadirCaracteristica (servicio : ServicioEnEmisora) (cs : List Caracteristica) :
    cs.foldl ServicioEnEmisora.anyadirCaracteristica servicio =
      { uuidServicio := servicio.uuidServicio,
        lasCaracteristicas := servicio.lasCaracteristicas ++ cs } := by
  induction cs generalizing servicio with
  | nil => simp
  | cons c cs ih =>
    rw [List.foldl_cons, ih]
    simp [ServicioEnEmisora.anyadirCaracteristica]

/-- The variadic recursion of `anyadirServicioConSusCaracteristicas` is the
fold of `anyadirCaracteristica` followed by one `anyadirServicio`. -/
theorem anyadirServicioConSusCaracteristicas_eq (emisora : EmisoraBLE) (res : Resultados)
    (servicio : ServicioEnEmisora) (cs : List Caracteristica) (radio : Radio) :
    emisora.anyadirServicioConSusCaracteristicas res servicio cs radio =
      (res.addService, cs.foldl ServicioEnEmisora.anyadirCaracteristica servicio,
        radio.llamar (.advertisingAddService servicio.uuidServicio res.addService)) := by
  induction cs generalizing servicio with
  | nil => rfl
  | cons c cs ih =>
    rw [EmisoraBLE.anyadirServicioConSusCaracteristicas, ih, List.foldl_cons]
    rfl

/-- The activation loop from position `k` adds one `begin` per characteristic,
in list order, with the result the stack gives at that position, and nothing
else. -/
theorem activarCaracteristicas_eq (res : Resultados) (k : Nat) (cs : List Caracteristica)
    (radio : Radio) :
    activarCaracteristicas res k cs radio =
      { anunciando := radio.anunciando,
        llamadas := radio.llamadas ++
          List.zipWith
            (fun car i => Llamada.caracteristicaBegin car.uuidCaracteristica
              (res.caracteristicaBegin i))
            cs (List.range' k cs.length) } := by
  induction cs generalizing k radio with
  | nil => simp [activarCaracteristicas]
  | cons c cs ih =>
    rw [activarCaracteristicas, ih]
    simp [Caracteristica.activar, Radio.llamar, List.range'_succ]

/-- The start attempts among the calls of the activation loop are the
characteristics, in list order. -/
theorem intentos_de_la_activacion (res : Resultados) (k : Nat) (cs : List Caracteristica) :
    (List.zipWith
        (fun car i => Llamada.caracteristicaBegin car.uuidCaracteristica
          (res.caracteristicaBegin i))
        cs (List.range' k cs.length)).filterMap intentoDeInicio =
      cs.map (fun car => some car.uuidCaracteristica) := by
  induction cs generalizing k with
  | nil => rfl
  | cons c cs ih =>
    simp only [List.length_cons, List.range'_succ, List.zipWith_cons_cons, List.map_cons]
    rw [List.filterMap_cons_some (by rfl : intentoDeInicio _ = some (some c.uuidCaracteristica)),
      ih]

/-- The error codes read by the activation loop are the results the stack gives
at the positions `k, k+1, ...`, one per characteristic. -/
theorem errores_de_la_activacion (res : Resultados) (k : Nat) (cs : List Caracteristica) :
    (List.zipWith
        (fun car i => Llamada.caracteristicaBegin car.uuidCaracteristica
          (res.caracteristicaBegin i))
        cs (List.range' k cs.length)).filterMap errorDeInicio =
      (List.range' k cs.length).map res.caracteristicaBegin := by
  induction cs generalizing k with
  | nil => rfl
  | cons c cs ih =>
    simp only [List.length_cons, List.range'_succ, List.zipWith_cons_cons, List.map_cons]
    rw [List.filterMap_cons_some (by rfl : errorDeInicio _ = some (res.caracteristicaBegin k)),
      ih]

/-- The radio state after `activarServicio`. -/
theorem activarServicio_eq (servicio : ServicioEnEmisora) (res : Resultados) (radio : Radio) :
    servicio.activarServicio res radio =
      { anunciando := radio.anunciando,
        llamadas := radio.llamadas ++
          Llamada.servicioBegin servicio.uuidServicio res.servicioBegin ::
            List.zipWith
              (fun car i => Llamada.caracteristicaBegin car.uuidCaracteristica
                (res.caracteristicaBegin i))
              servicio.lasCaracteristicas (List.range' 0 servicio.lasCaracteristicas.length) } := by
  rw [ServicioEnEmisora.activarServicio, activarCaracteristicas_eq]
  simp [Radio.llamar]

/-! ## C9, C10 : composing and activating a service -/

/-- C9: for every service with characteristic list `L` and every sequence
`c1..cn`, `anyadirServicioConSusCaracteristicasYActivar` leaves the list of the
service equal to `L` followed by `c1..cn` in the given order; the variadic
recursion gives the service a left-to-right fold of `anyadirCaracteristica`
gives; the external calls are the one `addService` followed by exactly one
activation pass, and that pass is `activarServicio` of the service that already
holds all the characteristics: one `begin` of the service, then one `begin` for
each element of `L ++ [c1..cn]` in order. -/
theorem c9_anyadir_en_orden_y_una_activacion (emisora : EmisoraBLE) (res : Resultados)
    (servicio : ServicioEnEmisora) (cs : List Caracteristica) (radio : Radio) :
    (emisora.anyadirServicioConSusCaracteristicasYActivar res servicio cs radio).2.1.lasCaracteristicas
      = servicio.lasCaracteristicas ++ cs ∧
    (emisora.anyadirServicioConSusCaracteristicasYActivar res servicio cs radio).2.1
      = cs.foldl ServicioEnEmisora.anyadirCaracteristica servicio ∧
    (emisora.anyadirServicioConSusCaracteristicas res servicio cs radio).2.1
      = cs.foldl ServicioEnEmisora.anyadirCaracteristica servicio ∧
    (emisora.anyadirServicioConSusCaracteristicasYActivar res servicio cs radio).2.2
      = (cs.foldl ServicioEnEmisora.anyadirCaracteristica servicio).activarServicio res
          (radio.llamar (.advertisingAddService servicio.uuidServicio res.addService)) ∧
    ((emisora.anyadirServicioConSusCaracteristicasYActivar res servicio cs radio).2.2.llamadas.drop
        radio.llamadas.length).filterMap intentoDeInicio
      = none :: (servicio.lasCaracteristicas ++ cs).map (fun car => some car.uuidCaracteristica) ∧
    (((emisora.anyadirServicioConSusCaracteristicasYActivar res servicio cs radio).2.2.llamadas.drop
        radio.llamadas.length).filterMap intentoDeInicio).count none = 1 ∧
    ((emisora.anyadirServicioConSusCaracteristicasYActivar res servicio cs radio).2.2.llamadas.drop
        radio.llamadas.length).take 2
      = [.advertisingAddService servicio.uuidServicio res.addService,
         .servicioBegin servicio.uuidServicio res.servicioBegin] := by
  have hrun : emisora.anyadirServicioConSusCaracteristicasYActivar res servicio cs radio =
      (res.addService, cs.foldl ServicioEnEmisora.anyadirCaracteristica servicio,
        (cs.foldl ServicioEnEmisora.anyadirCaracteristica servicio).activarServicio res
          (radio.llamar (.advertisingAddService servicio.uuidServicio res.addService))) := by
    rw [EmisoraBLE.anyadirServicioConSusCaracteristicasYActivar,
      anyadirServicioConSusCaracteristicas_eq]
  have hnuevas :
      (emisora.anyadirServicioConSusCaracteristicasYActivar res servicio cs radio).2.2.llamadas.drop
        radio.llamadas.length =
      Llamada.advertisingAddService servicio.uuidServicio res.addService ::
        Llamada.servicioBegin servicio.uuidServicio res.servicioBegin ::
          List.zipWith
            (fun car i => Llamada.caracteristicaBegin car.uuidCaracteristica
              (res.caracteristicaBegin i))
            (servicio.lasCaracteristicas ++ cs)
            (List.range' 0 (servicio.lasCaracteristicas ++ cs).length) := by
    rw [hrun]
    simp only [activarServicio_eq, foldl_anyadirCaracteristica, Radio.llamar, List.append_assoc,
      List.drop_left, List.singleton_append]
  have hintentos :
      ((emisora.anyadirServicioConSusCaracteristicasYActivar res servicio cs radio).2.2.llamadas.drop
        radio.llamadas.length).filterMap intentoDeInicio
      = none :: (servicio.lasCaracteristicas ++ cs).map
          (fun car => some car.uuidCaracteristica) := by
    rw [hnuevas,
      List.filterMap_cons_none (by rfl : intentoDeInicio (.advertisingAddService _ _) = none),
      List.filterMap_cons_some (by rfl : intentoDeInicio (.servicioBegin _ _) = some none),
      intentos_de_la_activacion]
  refine ⟨?_, ?_, ?_, ?_, hintentos, ?_, ?_⟩
  · rw [hrun, foldl_anyadirCaracteristica]
  · rw [hrun]
  · rw [anyadirServicioConSusCaracteristicas_eq]
  · rw [hrun]
  · rw [hintentos, List.count_cons_self]
    have h0 : List.count (none : Option (List Nat))
        ((servicio.lasCaracteristicas ++ cs).map (fun car => some car.uuidCaracteristica)) = 0 := by
      rw [List.count_eq_zero]
      simp
    rw [h0]
  · rw [hnuevas]
    rfl

/-- C10: for every service and every assignment of results to the start
attempts, the external calls of `activarServicio` are one `begin` of the service
followed by one `begin` of every characteristic of the list, in list order,
whatever error codes the attempts return; with three characteristics of which
the second fails (error 7), the first and the third are still started. -/
theorem c10_activarServicio_recorre_toda_la_lista (servicio : ServicioEnEmisora)
    (res : Resultados) (radio : Radio) :
    ((servicio.activarServicio res radio).llamadas.drop radio.llamadas.length).filterMap
        intentoDeInicio
      = none :: servicio.lasCaracteristicas.map (fun car => some car.uuidCaracteristica) ∧
    ((servicio.activarServicio res radio).llamadas.drop radio.llamadas.length).filterMap
        errorDeInicio
      = res.servicioBegin ::
          (List.range servicio.lasCaracteristicas.length).map res.caracteristicaBegin ∧
    ((servicio.activarServicio res radio).llamadas.drop radio.llamadas.length).length
      = 1 + servicio.lasCaracteristicas.length ∧
    ((({ uuidServicio := uuidPorDefecto,
         lasCaracteristicas := [Caracteristica.crear [65], Caracteristica.crear [66],
           Caracteristica.crear [67]] } : ServicioEnEmisora).activarServicio
        { addService := true, servicioBegin := 0,
          caracteristicaBegin := fun k => if k = 1 then 7 else 0 }
        { anunciando := false, llamadas := [] }).llamadas)
      = [.servicioBegin uuidPorDefecto 0,
         .caracteristicaBegin (Caracteristica.crear [65]).uuidCaracteristica 0,
         .caracteristicaBegin (Caracteristica.crear [66]).uuidCaracteristica 7,
         .caracteristicaBegin (Caracteristica.crear [67]).uuidCaracteristica 0] := by
  have hnuevas :
      (servicio.activarServicio res radio).llamadas.drop radio.llamadas.length =
        Llamada.servicioBegin servicio.uuidServicio res.servicioBegin ::
          List.zipWith
            (fun car i => Llamada.caracteristicaBegin car.uuidCaracteristica
              (res.caracteristicaBegin i))
            servicio.lasCaracteristicas (List.range' 0 servicio.lasCaracteristicas.length) := by
    rw [activarServicio_eq, List.drop_left]
  refine ⟨?_, ?_, ?_, by decide⟩
  · rw [hnuevas,
      List.filterMap_cons_some (by rfl : intentoDeInicio (.servicioBegin _ _) = some none),
      intentos_de_la_activacion]
  · rw [hnuevas,
      List.filterMap_cons_some (by rfl : errorDeInicio (.servicioBegin _ _) = some res.servicioBegin),
      errores_de_la_activacion, List.range_eq_range']
  · rw [hnuevas]
    simp
    omega

/-! ## C11 : `alReves` -/

/-- An index inside a list reads the element `getD` gives. -/
theorem getElem?_eq_some_getD {T : Type} (l : List T) (i : Nat) (d : T) (h : i < l.length) :
    l[i]? = some (l.getD i d) := by
  rw [List.getD_eq_getElem?_getD, List.getElem?_eq_getElem h]
  rfl

/-- After `k` rounds of the swap loop of `alReves` the first `k` and the last
`k` places hold the mirrored elements and the places between them are
untouched. -/
theorem bucle_alReves_getElem? {T : Type} [Inhabited T] (p : List T) (n : Nat)
    (hp : p.length = n) (k : Nat) (hk : k ≤ n / 2) :
    ((List.range k).foldl
        (fun q i => (q.set i (q.getD (n - i - 1) default)).set (n - i - 1) (q.getD i default))
        p).length = n ∧
    ∀ j, ((List.range k).foldl
        (fun q i => (q.set i (q.getD (n - i - 1) default)).set (n - i - 1) (q.getD i default))
        p)[j]? =
      if (j < k ∨ n - k ≤ j) ∧ j < n then p[n - 1 - j]? else p[j]? := by
  induction k with
  | zero =>
    refine ⟨by simpa using hp, fun j => ?_⟩
    have hno : ¬ ((j < 0 ∨ n - 0 ≤ j) ∧ j < n) := by omega
    rw [if_neg hno]
    rfl
  | succ k ih =>
    obtain ⟨hlen, hget⟩ := ih (by omega)
    rw [List.range_succ, List.foldl_append]
    simp only [List.foldl_cons, List.foldl_nil]
    generalize hr : (List.range k).foldl
        (fun q i => (q.set i (q.getD (n - i - 1) default)).set (n - i - 1) (q.getD i default))
        p = r at hlen hget ⊢
    have hkn : k < n - k - 1 := by omega
    have hlo : r.getD k default = p.getD k default := by
      have h1 := hget k
      have hno : ¬ ((k < k ∨ n - k ≤ k) ∧ k < n) := by omega
      rw [if_neg hno, getElem?_eq_some_getD r k default (by omega),
        getElem?_eq_some_getD p k default (by omega)] at h1
      exact Option.some.inj h1
    have hhi : r.getD (n - k - 1) default = p.getD (n - k - 1) default := by
      have h1 := hget (n - k - 1)
      have hno : ¬ ((n - k - 1 < k ∨ n - k ≤ n - k - 1) ∧ n - k - 1 < n) := by omega
      rw [if_neg hno, getElem?_eq_some_getD r (n - k - 1) default (by omega),
        getElem?_eq_some_getD p (n - k - 1) default (by omega)] at h1
      exact Option.some.inj h1
    refine ⟨by rw [List.length_set, List.length_set]; exact hlen, fun j => ?_⟩
    rw [List.getElem?_set, List.length_set, hlen, List.getElem?_set, hlen, hget j, hlo, hhi]
    by_cases hj1 : n - k - 1 = j
    · have h1 : n - k - 1 < n := by omega
      have h2 : (j < k + 1 ∨ n - (k + 1) ≤ j) ∧ j < n := by omega
      have h3 : n - 1 - j = k := by omega
      rw [if_pos hj1, if_pos h1, if_pos h2, h3, getElem?_eq_some_getD p k default (by omega)]
    · rw [if_neg hj1]
      by_cases hj2 : k = j
      · have h1 : k < n := by omega
        have h2 : (j < k + 1 ∨ n - (k + 1) ≤ j) ∧ j < n := by omega
        have h3 : n - 1 - j = n - k - 1 := by omega
        rw [if_pos hj2, if_pos h1, if_pos h2, h3,
          getElem?_eq_some_getD p (n - k - 1) default (by omega)]
      · rw [if_neg hj2]
        by_cases hin : (j < k ∨ n - k ≤ j) ∧ j < n
        · have h2 : (j < k + 1 ∨ n - (k + 1) ≤ j) ∧ j < n := by omega
          rw [if_pos hin, if_pos h2]
        · have h2 : ¬ ((j < k + 1 ∨ n - (k + 1) ≤ j) ∧ j < n) := by omega
          rw [if_neg hin, if_neg h2]

/-- On an array of exactly `n` elements `alReves` computes the reversed list. -/
theorem alReves_eq_reverse {T : Type} [Inhabited T] (p : List T) (n : Nat)
    (hp : p.length = n) : alReves p n = p.reverse := by
  obtain ⟨hlen, hget⟩ := bucle_alReves_getElem? p n hp (n / 2) (le_refl _)
  apply List.ext_getElem?
  intro j
  unfold alReves
  simp only []
  rw [hget j]
  by_cases hj : j < n
  · rw [List.getElem?_reverse (by omega), hp]
    by_cases hin : (j < n / 2 ∨ n - n / 2 ≤ j) ∧ j < n
    · rw [if_pos hin]
    · have hmid : n - 1 - j = j := by omega
      rw [if_neg hin, hmid]
  · have hno : ¬ ((j < n / 2 ∨ n - n / 2 ≤ j) ∧ j < n) := by omega
    rw [if_neg hno, List.getElem?_eq_none (by omega),
      List.getElem?_eq_none (by rw [List.length_reverse]; omega)]

/-- C11: for every array `p` of `n` elements, `alReves p n` reverses it in
place: the array keeps its `n` elements, element `i` afterwards is the original
element `n-1-i` for every `i < n`, for odd `n` the middle element is the
original middle element, and applying `alReves` twice gives back the original
array. -/
theorem c11_alReves_invierte_en_el_sitio {T : Type} [Inhabited T] (p : List T) (n : Nat)
    (hp : p.length = n) :
    (alReves p n).length = n ∧
    (∀ i, i < n → (alReves p n)[i]? = some (p.getD (n - 1 - i) default)) ∧
    alReves p n = p.reverse ∧
    (n % 2 = 1 → (alReves p n)[n / 2]? = some (p.getD (n / 2) default)) ∧
    alReves (alReves p n) n = p := by
  have hrev := alReves_eq_reverse p n hp
  have hlen : (alReves p n).length = n := by rw [hrev, List.length_reverse, hp]
  have hget : ∀ i, i < n → (alReves p n)[i]? = some (p.getD (n - 1 - i) default) := by
    intro i hi
    rw [hrev, List.getElem?_reverse (by omega), hp,
      getElem?_eq_some_getD p (n - 1 - i) default (by omega)]
  refine ⟨hlen, hget, hrev, ?_, ?_⟩
  · intro hodd
    have hmid : n - 1 - n / 2 = n / 2 := by omega
    rw [hget (n / 2) (by omega), hmid]
  · rw [alReves_eq_reverse (alReves p n) n hlen, hrev, List.reverse_reverse]

/-- Witness of C11 at an array of five elements: the middle one stays. -/
theorem c11_alReves_invierte_en_el_sitio_witness :
    [10, 20, 30, 40, 50].length = 5 ∧
    alReves [10, 20, 30, 40, 50] 5 = [50, 40, 30, 20, 10] :=
  ⟨by decide,
    (c11_alReves_invierte_en_el_sitio [10, 20, 30, 40, 50] 5 (by decide)).2.2.1.trans
      (by decide)⟩

/-! ## C12, C13 : the major and the measured power of a publication -/

/-- The major set on the radio by `publicarCO2`. -/
theorem majoresAnunciados_publicarCO2 (valor : Int) (contador : Nat) (tiempoEspera : Int)
    (radio : Radio) :
    majoresAnunciados
        ((Publicador.publicarCO2 valor contador tiempoEspera radio).llamadas.drop
          radio.llamadas.length) =
      [aInt16 (aUint16 (((Publicador.MedicionesID.CO2 <<< 8 : Nat) : Int) + (contador : Int)))] := by
  rw [publicarCO2_eq, List.append_assoc, List.drop_left]
  cases radio.anunciando <;> simp [majoresAnunciados, beaconAnunciado]

/-- The major set on the radio by `publicarTemperatura`. -/
theorem majoresAnunciados_publicarTemperatura (valor : Int) (contador : Nat)
    (tiempoEspera : Int) (radio : Radio) :
    majoresAnunciados
        ((Publicador.publicarTemperatura valor contador tiempoEspera radio).llamadas.drop
          radio.llamadas.length) =
      [aInt16 (aUint16 (((Publicador.MedicionesID.TEMPERATURA <<< 8 : Nat) : Int)
        + (contador : Int)))] := by
  rw [publicarTemperatura_eq, List.append_assoc, List.drop_left]
  cases radio.anunciando <;> simp [majoresAnunciados, beaconAnunciado]

/-- Decoding of `(id << 8) | contador` for an 8-bit counter: the high byte is
the kind, the low byte the counter. -/
theorem decodificar_major (id contador : Nat) (hc : contador < 256) :
    ((id <<< 8) ||| contador) >>> 8 = id ∧ ((id <<< 8) ||| contador) &&& 0xFF = contador := by
  have h1 : id <<< 8 = 2 ^ 8 * id := by rw [Nat.shiftLeft_eq, Nat.mul_comm]
  have hor : 2 ^ 8 * id + contador = 2 ^ 8 * id ||| contador := Nat.mul_add_lt_is_or hc id
  have hand := Nat.and_pow_two_sub_one_eq_mod (2 ^ 8 * id + contador) 8
  rw [h1, ← hor, Nat.shiftRight_eq_div_pow]
  refine ⟨by omega, ?_⟩
  have h255 : (0xFF : Nat) = 2 ^ 8 - 1 := by norm_num
  rw [h255, hand]
  omega

/-- For an 8-bit counter `(id << 8) | contador` is the sum `256 * id + contador`. -/
theorem major_como_suma (id contador : Nat) (hc : contador < 256) :
    (id <<< 8) ||| contador = 2 ^ 8 * id + contador := by
  rw [Nat.shiftLeft_eq, Nat.mul_comm]
  exact (Nat.mul_add_lt_is_or hc id).symm

/-- For a kind below 128 and an 8-bit counter the major is below `2^15` and the
conversion to `int16_t` keeps it. -/
theorem major_cabe_en_int16 (id contador : Nat) (hid : id < 128) (hc : contador < 256) :
    (id <<< 8) ||| contador < 2 ^ 15 ∧
    aInt16 (((id <<< 8) ||| contador : Nat) : Int) = (((id <<< 8) ||| contador : Nat) : Int) := by
  rw [major_como_suma id contador hc]
  refine ⟨by omega, ?_⟩
  unfold aInt16
  push_cast
  omega

/-- C12: for the kinds the publisher emits (CO2 = 11, TEMPERATURA = 12) and
every pair of 8-bit counters, the major set on the radio is `(kind << 8) |
counter` unchanged by the conversion to the signed 16-bit parameter (it is below
`2^15`); shifting it right by 8 gives the kind and masking it with `0xFF` gives
the counter; so two publications of the same kind with equal major have the
same counter, and a CO2 publication and a temperature publication never have
the same major. -/
theorem c12_major_decodificable_e_inyectivo (valor1 valor2 : Int) (contador1 contador2 : Nat)
    (tiempo1 tiempo2 : Int) (radio1 radio2 : Radio)
    (h1 : contador1 < 256) (h2 : contador2 < 256) :
    majoresAnunciados
        ((Publicador.publicarCO2 valor1 contador1 tiempo1 radio1).llamadas.drop
          radio1.llamadas.length) = [(((11 <<< 8) ||| contador1 : Nat) : Int)] ∧
    majoresAnunciados
        ((Publicador.publicarTemperatura valor1 contador1 tiempo1 radio1).llamadas.drop
          radio1.llamadas.length) = [(((12 <<< 8) ||| contador1 : Nat) : Int)] ∧
    (((11 <<< 8) ||| contador1) >>> 8 = Publicador.MedicionesID.CO2 ∧
      ((11 <<< 8) ||| contador1) &&& 0xFF = contador1) ∧
    (((12 <<< 8) ||| contador1) >>> 8 = Publicador.MedicionesID.TEMPERATURA ∧
      ((12 <<< 8) ||| contador1) &&& 0xFF = contador1) ∧
    ((11 <<< 8) ||| contador1 < 2 ^ 15 ∧ (12 <<< 8) ||| contador1 < 2 ^ 15) ∧
    (aInt16 (((11 <<< 8) ||| contador1 : Nat) : Int) = (((11 <<< 8) ||| contador1 : Nat) : Int) ∧
      aInt16 (((12 <<< 8) ||| contador1 : Nat) : Int) = (((12 <<< 8) ||| contador1 : Nat) : Int)) ∧
    (majoresAnunciados
        ((Publicador.publicarCO2 valor1 contador1 tiempo1 radio1).llamadas.drop
          radio1.llamadas.length) =
      majoresAnunciados
        ((Publicador.publicarCO2 valor2 contador2 tiempo2 radio2).llamadas.drop
          radio2.llamadas.length) → contador1 = contador2) ∧
    (majoresAnunciados
        ((Publicador.publicarTemperatura valor1 contador1 tiempo1 radio1).llamadas.drop
          radio1.llamadas.length) =
      majoresAnunciados
        ((Publicador.publicarTemperatura valor2 contador2 tiempo2 radio2).llamadas.drop
          radio2.llamadas.length) → contador1 = contador2) ∧
    majoresAnunciados
        ((Publicador.publicarCO2 valor1 contador1 tiempo1 radio1).llamadas.drop
          radio1.llamadas.length) ≠
      majoresAnunciados
        ((Publicador.publicarTemperatura valor2 contador2 tiempo2 radio2).llamadas.drop
          radio2.llamadas.length) := by
  have mco2 : ∀ (v : Int) (c : Nat) (t : Int) (r : Radio), c < 256 →
      majoresAnunciados ((Publicador.publicarCO2 v c t r).llamadas.drop r.llamadas.length) =
        [(((11 <<< 8) ||| c : Nat) : Int)] := by
    intro v c t r hc
    rw [majoresAnunciados_publicarCO2, Publicador.MedicionesID.CO2,
      major_sin_desbordar 11 c (by decide) hc]
  have mtemp : ∀ (v : Int) (c : Nat) (t : Int) (r : Radio), c < 256 →
      majoresAnunciados ((Publicador.publicarTemperatura v c t r).llamadas.drop r.llamadas.length) =
        [(((12 <<< 8) ||| c : Nat) : Int)] := by
    intro v c t r hc
    rw [majoresAnunciados_publicarTemperatura, Publicador.MedicionesID.TEMPERATURA,
      major_sin_desbordar 12 c (by decide) hc]
  have d11 := decodificar_major 11 contador1 h1
  have d12 := decodificar_major 12 contador1 h1
  have e11 := decodificar_major 11 contador2 h2
  have e12 := decodificar_major 12 contador2 h2
  have f11 := major_cabe_en_int16 11 contador1 (by decide) h1
  have f12 := major_cabe_en_int16 12 contador1 (by decide) h1
  refine ⟨mco2 _ _ _ _ h1, mtemp _ _ _ _ h1, d11, d12, ?_, ?_, ?_, ?_, ?_⟩
  · exact ⟨f11.1, f12.1⟩
  · exact ⟨f11.2, f12.2⟩
  · intro heq
    rw [mco2 _ _ _ _ h1, mco2 _ _ _ _ h2] at heq
    have hn : (11 <<< 8) ||| contador1 = (11 <<< 8) ||| contador2 := by
      exact_mod_cast List.head_eq_of_cons_eq heq
    rw [← d11.2, hn, e11.2]
  · intro heq
    rw [mtemp _ _ _ _ h1, mtemp _ _ _ _ h2] at heq
    have hn : (12 <<< 8) ||| contador1 = (12 <<< 8) ||| contador2 := by
      exact_mod_cast List.head_eq_of_cons_eq heq
    rw [← d12.2, hn, e12.2]
  · intro heq
    rw [mco2 _ _ _ _ h1, mtemp _ _ _ _ h2] at heq
    have hn : (11 <<< 8) ||| contador1 = (12 <<< 8) ||| contador2 := by
      exact_mod_cast List.head_eq_of_cons_eq heq
    have h11 := d11.1
    rw [hn, e12.1] at h11
    exact absurd h11 (by decide)

/-- Witness of C12 at the counters 7 and 200, from an idle radio. -/
theorem c12_major_decodificable_e_inyectivo_witness :
    7 < 256 ∧ 200 < 256 ∧
    majoresAnunciados
        ((Publicador.publicarCO2 400 7 50 { anunciando := false, llamadas := [] }).llamadas.drop
          ({ anunciando := false, llamadas := [] } : Radio).llamadas.length) =
      [(((11 <<< 8) ||| 7 : Nat) : Int)] :=
  ⟨by decide, by decide,
    (c12_major_decodificable_e_inyectivo 400 21 7 200 50 50
      { anunciando := false, llamadas := [] } { anunciando := false, llamadas := [] }
      (by decide) (by decide)).1⟩

/-- The measured power set on the radio by `publicarCO2`. -/
theorem rssiAnunciados_publicarCO2 (valor : Int) (contador : Nat) (tiempoEspera : Int)
    (radio : Radio) :
    rssiAnunciados
        ((Publicador.publicarCO2 valor contador tiempoEspera radio).llamadas.drop
          radio.llamadas.length) = [aUint8 Publicador.RSSI] := by
  rw [publicarCO2_eq, List.append_assoc, List.drop_left]
  cases radio.anunciando <;> simp [rssiAnunciados, beaconAnunciado]

/-- The measured power set on the radio by `publicarTemperatura`. -/
theorem rssiAnunciados_publicarTemperatura (valor : Int) (contador : Nat) (tiempoEspera : Int)
    (radio : Radio) :
    rssiAnunciados
        ((Publicador.publicarTemperatura valor contador tiempoEspera radio).llamadas.drop
          radio.llamadas.length) = [aUint8 Publicador.RSSI] := by
  rw [publicarTemperatura_eq, List.append_assoc, List.drop_left]
  cases radio.anunciando <;> simp [rssiAnunciados, beaconAnunciado]

/-- C13: in every publication, of CO2 or of temperature, whatever the value,
the counter, the dwell time and the radio state, the measured-power argument
that reaches `emitirAnuncioIBeacon` is the constant `RSSI = -53` converted to
`uint8_t`, the byte 203 (`0xCB`, which is -53 modulo `2^8`), and the signed
8-bit reading of that byte is -53 again. -/
theorem c13_rssi_constante_203 (valor : Int) (contador : Nat) (tiempoEspera : Int)
    (radio : Radio) :
    rssiAnunciados
        ((Publicador.publicarCO2 valor contador tiempoEspera radio).llamadas.drop
          radio.llamadas.length) = [203] ∧
    rssiAnunciados
        ((Publicador.publicarTemperatura valor contador tiempoEspera radio).llamadas.drop
          radio.llamadas.length) = [203] ∧
    Publicador.publicarCO2 valor contador tiempoEspera radio =
      Publicador.laEmisora.detenerAnuncio (esperar tiempoEspera
        (Publicador.laEmisora.emitirAnuncioIBeacon Publicador.beaconUUID
          (aInt16 (aUint16 (((Publicador.MedicionesID.CO2 <<< 8 : Nat) : Int) + (contador : Int))))
          valor 203 radio)) ∧
    Publicador.RSSI = -53 ∧
    aUint8 Publicador.RSSI = 203 ∧
    (203 : Nat) = 0xCB ∧
    (-53 : Int) % 2 ^ 8 = 203 ∧
    aInt8 ((aUint8 Publicador.RSSI : Nat) : Int) = -53 := by
  have h203 : aUint8 Publicador.RSSI = 203 := by decide
  refine ⟨?_, ?_, ?_, rfl, h203, by decide, by decide, by decide⟩
  · rw [rssiAnunciados_publicarCO2, h203]
  · rw [rssiAnunciados_publicarTemperatura, h203]
  · rw [Publicador.publicarCO2, h203]

/-! ## C14 : the result of composing and activating a service -/

/-- The result, the service and the radio state after
`anyadirServicioConSusCaracteristicasYActivar`. -/
theorem anyadirServicioConSusCaracteristicasYActivar_eq (emisora : EmisoraBLE)
    (res : Resultados) (servicio : ServicioEnEmisora) (cs : List Caracteristica)
    (radio : Radio) :
    emisora.anyadirServicioConSusCaracteristicasYActivar res servicio cs radio =
      (res.addService, cs.foldl ServicioEnEmisora.anyadirCaracteristica servicio,
        (cs.foldl ServicioEnEmisora.anyadirCaracteristica servicio).activarServicio res
          (radio.llamar (.advertisingAddService servicio.uuidServicio res.addService))) := by
  rw [EmisoraBLE.anyadirServicioConSusCaracteristicasYActivar,
    anyadirServicioConSusCaracteristicas_eq]

/-- The external calls `anyadirServicioConSusCaracteristicasYActivar` adds to the
trace: the `addService`, the `begin` of the service, one `begin` per
characteristic. -/
theorem anyadirServicioConSusCaracteristicasYActivar_llamadas (emisora : EmisoraBLE)
    (res : Resultados) (servicio : ServicioEnEmisora) (cs : List Caracteristica)
    (radio : Radio) :
    (emisora.anyadirServicioConSusCaracteristicasYActivar res servicio cs radio).2.2.llamadas.drop
        radio.llamadas.length =
      Llamada.advertisingAddService servicio.uuidServicio res.addService ::
        Llamada.servicioBegin servicio.uuidServicio res.servicioBegin ::
          List.zipWith
            (fun car i => Llamada.caracteristicaBegin car.uuidCaracteristica
              (res.caracteristicaBegin i))
            (servicio.lasCaracteristicas ++ cs)
            (List.range' 0 (servicio.lasCaracteristicas ++ cs).length) := by
  rw [anyadirServicioConSusCaracteristicasYActivar_eq]
  simp only [activarServicio_eq, foldl_anyadirCaracteristica, Radio.llamar, List.append_assoc,
    List.drop_left, List.singleton_append]

/-- No call of the activation loop is an `addService`. -/
theorem resultadoAddService_de_la_activacion (res : Resultados) (k : Nat)
    (cs : List Caracteristica) :
    (List.zipWith
        (fun car i => Llamada.caracteristicaBegin car.uuidCaracteristica
          (res.caracteristicaBegin i))
        cs (List.range' k cs.length)).filterMap resultadoAddService = [] := by
  induction cs generalizing k with
  | nil => rfl
  | cons c cs ih =>
    simp only [List.length_cons, List.range'_succ, List.zipWith_cons_cons]
    rw [List.filterMap_cons_none (by rfl : resultadoAddService (.caracteristicaBegin _ _) = none),
      ih]

/-- C14: for every service and sequence of characteristics, the boolean
`anyadirServicioConSusCaracteristicasYActivar` returns is the result of the one
`Bluefruit.Advertising.addService` call it makes; it is the same whatever the
`begin` of the service and of the characteristics return; and when
`addService` returns false the activation pass is still performed: the service
and every characteristic are started and false is returned. -/
theorem c14_devuelve_el_resultado_de_addService (emisora : EmisoraBLE) (res : Resultados)
    (servicio : ServicioEnEmisora) (cs : List Caracteristica) (radio : Radio) :
    (emisora.anyadirServicioConSusCaracteristicasYActivar res servicio cs radio).1
      = res.addService ∧
    ((emisora.anyadirServicioConSusCaracteristicasYActivar res servicio cs radio).2.2.llamadas.drop
        radio.llamadas.length).filterMap resultadoAddService
      = [(emisora.anyadirServicioConSusCaracteristicasYActivar res servicio cs radio).1] ∧
    (emisora.anyadirServicioConSusCaracteristicasYActivar res servicio cs radio).1
      = (emisora.anyadirServicio res
          (cs.foldl ServicioEnEmisora.anyadirCaracteristica servicio) radio).1 ∧
    (∀ (errorServicio : Nat) (errorCaracteristica : Nat → Nat),
      (emisora.anyadirServicioConSusCaracteristicasYActivar
          { addService := res.addService, servicioBegin := errorServicio,
            caracteristicaBegin := errorCaracteristica } servicio cs radio).1
        = (emisora.anyadirServicioConSusCaracteristicasYActivar res servicio cs radio).1) ∧
    (∀ (errorServicio : Nat) (errorCaracteristica : Nat → Nat),
      (emisora.anyadirServicioConSusCaracteristicasYActivar
          { addService := false, servicioBegin := errorServicio,
            caracteristicaBegin := errorCaracteristica } servicio cs radio).1 = false ∧
      ((emisora.anyadirServicioConSusCaracteristicasYActivar
          { addService := false, servicioBegin := errorServicio,
            caracteristicaBegin := errorCaracteristica } servicio cs radio).2.2.llamadas.drop
          radio.llamadas.length).filterMap intentoDeInicio
        = none :: (servicio.lasCaracteristicas ++ cs).map
            (fun car => some car.uuidCaracteristica)) := by
  have hret : ∀ r : Resultados,
      (emisora.anyadirServicioConSusCaracteristicasYActivar r servicio cs radio).1
        = r.addService := by
    intro r
    rw [anyadirServicioConSusCaracteristicasYActivar_eq]
  refine ⟨hret res, ?_, ?_, ?_, ?_⟩
  · rw [anyadirServicioConSusCaracteristicasYActivar_llamadas, hret res,
      List.filterMap_cons_some
        (by rfl : resultadoAddService (.advertisingAddService _ _) = some res.addService),
      List.filterMap_cons_none (by rfl : resultadoAddService (.servicioBegin _ _) = none),
      resultadoAddService_de_la_activacion]
  · rw [hret res]
    rfl
  · intro errorServicio errorCaracteristica
    rw [hret, hret]
  · intro errorServicio errorCaracteristica
    refine ⟨hret _, ?_⟩
    rw [anyadirServicioConSusCaracteristicasYActivar_llamadas,
      List.filterMap_cons_none (by rfl : intentoDeInicio (.advertisingAddService _ _) = none),
      List.filterMap_cons_some (by rfl : intentoDeInicio (.servicioBegin _ _) = some none),
      intentos_de_la_activacion]

end HolaMundoIBeacon
